import Mathlib

/-!
Verification of the tax-app extraction/reconciliation/computation core.

The definitions below are a shallow embedding of the TypeScript source:
  * the merge loop and missing-field computation of the
    POST /extract-tax-info route (documents are processed into
    { analysis, error } results, then folded into one formData object);
  * the derived-amount computation of generate1040Form
    (total income, AGI, standard deduction, taxable income,
    progressive-bracket estimated tax, rounded for display).

JavaScript values appearing in the merged record are modelled by
JsonVal (string, number, boolean, null); JavaScript truthiness of such
values is JsonVal.truthy.  Money amounts are modelled as rationals.
-/

namespace TaxApp

/-- A JSON-ish JavaScript value as produced by JSON.parse: a string, a
number, a boolean, or null.  (Objects/arrays never occur as field values
in the tax field vocabulary; the analysis object itself is modelled as an
association list of these values.) -/
inductive JsonVal where
  | str (s : String)
  | num (q : ℚ)
  | boolean (b : Bool)
  | null
deriving DecidableEq, Repr

/-- JavaScript truthiness of a JsonVal: null and false are falsy, a
number is falsy iff it is 0, a string is falsy iff it is empty. -/
def JsonVal.truthy : JsonVal → Bool
  | .str s => if s = "" then false else true
  | .num q => if q = 0 then false else true
  | .boolean b => b
  | .null => false

/-- One processed document as returned by the per-document extraction in
POST /extract-tax-info: an optional analysis object (an association list
of field name / value pairs, in JS object insertion order) and an
optional top-level error string.  analysis = none models a result with
no analysis property; error = none models a result with no error
property. -/
structure ProcessedDoc where
  analysis : Option (List (String × JsonVal))
  error : Option String
deriving DecidableEq, Repr

/-- JS falsiness of the optional error string: absent or empty is falsy
(the merge loop guard is !doc.error). -/
def errFalsy : Option String → Bool
  | none => true
  | some s => if s = "" then true else false

/-- The merged formData object, modelled as a partial map from field
name to value (none = property absent). -/
def FormData : Type := String → Option JsonVal

/-- The empty formData object {}. -/
def emptyFD : FormData := fun _ => none

/-- The merge-loop guard for one entry:
value !== null && (!formData[key] || formData[key] === null).
A stored null is falsy, so the JS disjunction collapses to: the current
value is absent or falsy. -/
def shouldSet (cur : Option JsonVal) (v : JsonVal) : Bool :=
  if v = JsonVal.null then false
  else
    match cur with
    | none => true
    | some c => !c.truthy

/-- formData[key] = value. -/
def setField (fd : FormData) (k : String) (v : JsonVal) : FormData :=
  fun f => if f = k then some v else fd f

/-- Processing of one [key, value] entry of Object.entries(doc.analysis)
by the merge loop. -/
def applyEntry (fd : FormData) (kv : String × JsonVal) : FormData :=
  if shouldSet (fd kv.1) kv.2 then setField fd kv.1 kv.2 else fd

/-- Processing of a whole entry list, left to right. -/
def mergeKVs (fd : FormData) : List (String × JsonVal) → FormData
  | [] => fd
  | kv :: rest => mergeKVs (applyEntry fd kv) rest

/-- Processing of one processed document by the outer forEach:
merged only if doc.analysis is present and doc.error is falsy. -/
def mergeDoc (fd : FormData) (d : ProcessedDoc) : FormData :=
  match d.analysis with
  | some kvs => if errFalsy d.error then mergeKVs fd kvs else fd
  | none => fd

/-- The full merge of POST /extract-tax-info: fold the processed
documents, in the supplied order, into an initially empty formData. -/
def mergeDocs (docs : List ProcessedDoc) : FormData :=
  docs.foldl mergeDoc emptyFD

/-- The fixed requiredFields list of POST /extract-tax-info, in source
order. -/
def requiredFields : List String :=
  ["firstName", "lastName", "ssn", "filingStatus",
   "address", "city", "state", "zip",
   "wages", "interest", "dividends", "capitalGains"]

/-- JS truthiness of an optional stored value: absent is falsy. -/
def optTruthy : Option JsonVal → Bool
  | none => false
  | some v => v.truthy

/-- The missingFields computation: every required field whose merged
value fails the guard !formData[field] || formData[field] === null
(i.e. is absent or falsy), kept in requiredFields order. -/
def missingFields (docs : List ProcessedDoc) : List String :=
  requiredFields.filter (fun f => !optTruthy (mergeDocs docs f))

/-- The input of generate1040Form (Form1040Data): identity and address
strings, four mandatory income amounts, and three optional amounts
(otherIncome?, adjustments?, deductions?), modelled as rationals. -/
structure Form1040Data where
  firstName : String
  lastName : String
  ssn : String
  filingStatus : String
  address : String
  city : String
  state : String
  zip : String
  wages : ℚ
  interest : ℚ
  dividends : ℚ
  capitalGains : ℚ
  otherIncome : Option ℚ
  adjustments : Option ℚ
  deductions : Option ℚ
deriving DecidableEq, Repr

/-- The JS expression (x || 0) on an optional number: absent yields 0;
a present 0 is falsy and also yields 0, which coincides with returning
the stored value. -/
def orZero : Option ℚ → ℚ
  | none => 0
  | some v => v

/-- The JS expression (data.deductions || standardDeduction): absent or
zero deductions fall back to the standard deduction, any other stored
value is used as is. -/
def orElseQ (d : Option ℚ) (std : ℚ) : ℚ :=
  match d with
  | none => std
  | some v => if v = 0 then std else v

/-- Line 9 of generate1040Form: total income =
wages + interest + dividends + capitalGains + (otherIncome || 0). -/
def totalIncome (d : Form1040Data) : ℚ :=
  d.wages + d.interest + d.dividends + d.capitalGains + orZero d.otherIncome

/-- Line 11 of generate1040Form: adjusted gross income =
total income - (adjustments || 0). -/
def adjustedGrossIncome (d : Form1040Data) : ℚ :=
  totalIncome d - orZero d.adjustments

/-- The standardDeduction ternary of generate1040Form:
single or married_separate yield 12950, head_of_household yields 19400,
every other filingStatus string falls into the final else and yields
25900. -/
def standardDeduction (fs : String) : ℚ :=
  if fs = "single" ∨ fs = "married_separate" then 12950
  else if fs = "head_of_household" then 19400
  else 25900

/-- The deduction used on line 12: data.deductions || standardDeduction. -/
def deductionApplied (d : Form1040Data) : ℚ :=
  orElseQ d.deductions (standardDeduction d.filingStatus)

/-- Line 14 of generate1040Form: taxable income =
Math.max(0, AGI - (deductions || standardDeduction)). -/
def taxableIncome (d : Form1040Data) : ℚ :=
  max 0 (adjustedGrossIncome d - deductionApplied d)

/-- The progressive-bracket chain of generate1040Form computing
estimatedTax from taxableIncome. -/
def estimatedTax (ti : ℚ) : ℚ :=
  if ti ≤ 10275 then ti * 0.10
  else if ti ≤ 41775 then 1027.50 + (ti - 10275) * 0.12
  else if ti ≤ 89075 then 4807.50 + (ti - 41775) * 0.22
  else if ti ≤ 170050 then 15213.50 + (ti - 89075) * 0.24
  else if ti ≤ 215950 then 34647.50 + (ti - 170050) * 0.32
  else if ti ≤ 539900 then 49335.50 + (ti - 215950) * 0.35
  else 162718 + (ti - 539900) * 0.37

/-- JavaScript Math.round: round half away from zero upward, i.e.
the floor of x + 1/2. -/
def jsRound (q : ℚ) : ℤ :=
  ⌊q + 1/2⌋

/-- Line 15 of generate1040Form: the displayed tax amount,
Math.round(estimatedTax) of the taxable income of the record. -/
def reportedTax (d : Form1040Data) : ℤ :=
  jsRound (estimatedTax (taxableIncome d))

/-! ### Analysis helpers for the merge -/

/-- Left-biased choice on optional values. -/
def oOr : Option JsonVal → Option JsonVal → Option JsonVal
  | some v, _ => some v
  | none, o => o

/-- The per-field evolution of one formData slot under a stream of
candidate values, following the merge-loop guard. -/
def jsFinal : Option JsonVal → List JsonVal → Option JsonVal
  | cur, [] => cur
  | cur, v :: rest => jsFinal (if shouldSet cur v then some v else cur) rest

/-- The first truthy value of a stream (null is never truthy). -/
def firstTruthy : List JsonVal → Option JsonVal
  | [] => none
  | v :: rest => if v.truthy then some v else firstTruthy rest

/-- The last non-null value of a stream. -/
def lastNonNull : List JsonVal → Option JsonVal
  | [] => none
  | v :: rest =>
      match lastNonNull rest with
      | some w => some w
      | none => if v = JsonVal.null then none else some v

/-- The first non-null value of a stream (the merge rule the spec
describes). -/
def firstNonNull : List JsonVal → Option JsonVal
  | [] => none
  | v :: rest => if v = JsonVal.null then firstNonNull rest else some v

/-- The values a single entry list supplies for field f, in order. -/
def valuesFor (f : String) (kvs : List (String × JsonVal)) : List JsonVal :=
  kvs.filterMap (fun kv => if kv.1 = f then some kv.2 else none)

/-- The entries a processed document contributes to the merge loop:
its analysis entries when analysis is present and error is falsy,
nothing otherwise. -/
def docEntries (d : ProcessedDoc) : List (String × JsonVal) :=
  match d.analysis with
  | some kvs => if errFalsy d.error then kvs else []
  | none => []

/-- The concatenated entry stream of a batch, in supplied order. -/
def entryStream (docs : List ProcessedDoc) : List (String × JsonVal) :=
  docs.foldr (fun d acc => docEntries d ++ acc) []

/-- The values a batch supplies for field f, in supplied order. -/
def fieldValues (docs : List ProcessedDoc) (f : String) : List JsonVal :=
  valuesFor f (entryStream docs)

/-! ### Spec-side definitions (written from the words of the spec, for
comparison with the embedded code) -/

/-- Modelled from the spec: the missing-field rule as §4.2 states it —
the required fields whose merged value is absent or null. -/
def specMissingFields (docs : List ProcessedDoc) : List String :=
  requiredFields.filter
    (fun f =>
      match mergeDocs docs f with
      | none => true
      | some v => v == JsonVal.null)

/-- Modelled from the spec: whether an extraction result carries an
error marker — either the top-level error property or an error key
inside the field set (the no-JSON fallback). -/
def hasErrorMarker (d : ProcessedDoc) : Bool :=
  (match d.error with
   | some _ => true
   | none => false) ||
  (match d.analysis with
   | some kvs => kvs.any (fun kv => kv.1 == "error")
   | none => false)

/-- Modelled from the spec: the reconciliation §4.2/§7 describe,
merging only the documents without error markers. -/
def specMergeNoErr (docs : List ProcessedDoc) : FormData :=
  mergeDocs (docs.filter (fun d => !hasErrorMarker d))

/-- Modelled from the spec: the fixed field vocabulary of the Glossary. -/
def fieldVocabulary : List String :=
  ["firstName", "lastName", "ssn", "filingStatus",
   "address", "city", "state", "zip",
   "wages", "interest", "dividends", "capitalGains",
   "otherIncome", "adjustments", "deductions"]

/-- Modelled from the spec: the progressive tax as a sum of marginal
pieces — each bracket contributes its rate times the part of the income
falling inside it. -/
def specMarginalTax (ti : ℚ) : ℚ :=
  0.10 * max 0 (min ti 10275)
  + 0.12 * max 0 (min (ti - 10275) (41775 - 10275))
  + 0.22 * max 0 (min (ti - 41775) (89075 - 41775))
  + 0.24 * max 0 (min (ti - 89075) (170050 - 89075))
  + 0.32 * max 0 (min (ti - 170050) (215950 - 170050))
  + 0.35 * max 0 (min (ti - 215950) (539900 - 215950))
  + 0.37 * max 0 (ti - 539900)

/-! ### Concrete documents and records used in witnesses and
counterexamples -/

/-- A document whose analysis reports zero wages. -/
def docWagesZero : ProcessedDoc :=
  ⟨some [("wages", JsonVal.num 0)], none⟩

/-- A document whose analysis reports wages of 500. -/
def docWages500 : ProcessedDoc :=
  ⟨some [("wages", JsonVal.num 500)], none⟩

/-- A document whose analysis reports wages of 75000. -/
def docWagesA : ProcessedDoc :=
  ⟨some [("wages", JsonVal.num 75000)], none⟩

/-- A document whose analysis reports wages of 60000. -/
def docWagesB : ProcessedDoc :=
  ⟨some [("wages", JsonVal.num 60000)], none⟩

/-- The no-JSON fallback result: analysis is the error-marker object,
the top-level error property is absent. -/
def fallbackDoc : ProcessedDoc :=
  ⟨some [("error", JsonVal.str "Could not parse structured data from document")], none⟩

/-- A document whose parsed analysis has an out-of-vocabulary key and a
mis-typed wages value. -/
def bogusDoc : ProcessedDoc :=
  ⟨some [("bogus", JsonVal.num 5), ("wages", JsonVal.str "abc")], none⟩

/-- A record whose adjustments exceed its income. -/
def recNegAGI : Form1040Data :=
  ⟨"A", "B", "123456789", "single", "1 St", "X", "CA", "90000",
   100, 0, 0, 0, none, some 500, none⟩

/-- A single filer with no deductions override. -/
def recSingleZeroDed : Form1040Data :=
  ⟨"A", "B", "123456789", "single", "1 St", "X", "CA", "90000",
   50000, 0, 0, 0, none, none, some 0⟩

/-- A single filer with a 15000 deductions override. -/
def recSingleDed15000 : Form1040Data :=
  ⟨"A", "B", "123456789", "single", "1 St", "X", "CA", "90000",
   50000, 0, 0, 0, none, none, some 15000⟩

/-- A filer whose filingStatus has unexpected casing. -/
def recCasedStatus : Form1040Data :=
  ⟨"A", "B", "123456789", "Single", "1 St", "X", "CA", "90000",
   50000, 0, 0, 0, none, none, none⟩

/-! ### Helper lemmas about the merge -/

theorem oOr_assoc (a b c : Option JsonVal) : oOr (oOr a b) c = oOr a (oOr b c) := by
  cases a <;> rfl

theorem oOr_none_right (a : Option JsonVal) : oOr a none = a := by
  cases a <;> rfl

theorem mergeKVs_append (a b : List (String × JsonVal)) (fd : FormData) :
    mergeKVs fd (a ++ b) = mergeKVs (mergeKVs fd a) b := by
  induction a generalizing fd with
  | nil => rfl
  | cons kv rest ih => simpa [mergeKVs] using ih (applyEntry fd kv)

theorem mergeDoc_eq (fd : FormData) (d : ProcessedDoc) :
    mergeDoc fd d = mergeKVs fd (docEntries d) := by
  rcases d with ⟨a, e⟩
  cases a with
  | none => rfl
  | some kvs =>
      cases he : errFalsy e <;> simp [mergeDoc, docEntries, he, mergeKVs]

theorem entryStream_cons (d : ProcessedDoc) (docs : List ProcessedDoc) :
    entryStream (d :: docs) = docEntries d ++ entryStream docs := rfl

theorem foldl_mergeDoc (docs : List ProcessedDoc) (fd : FormData) :
    docs.foldl mergeDoc fd = mergeKVs fd (entryStream docs) := by
  induction docs generalizing fd with
  | nil => rfl
  | cons d rest ih =>
      show rest.foldl mergeDoc (mergeDoc fd d) = mergeKVs fd (entryStream (d :: rest))
      rw [ih, entryStream_cons, mergeKVs_append, mergeDoc_eq]

theorem valuesFor_cons (f k : String) (v : JsonVal) (kvs : List (String × JsonVal)) :
    valuesFor f ((k, v) :: kvs) =
      if k = f then v :: valuesFor f kvs else valuesFor f kvs := by
  by_cases hk : k = f <;> simp [valuesFor, hk]

theorem valuesFor_append (f : String) (a b : List (String × JsonVal)) :
    valuesFor f (a ++ b) = valuesFor f a ++ valuesFor f b := by
  simp [valuesFor]

theorem applyEntry_self (fd : FormData) (k : String) (v : JsonVal) :
    applyEntry fd (k, v) k = if shouldSet (fd k) v then some v else fd k := by
  unfold applyEntry
  split <;> simp [setField]

theorem applyEntry_other (fd : FormData) (k : String) (v : JsonVal) (f : String)
    (hk : k ≠ f) : applyEntry fd (k, v) f = fd f := by
  unfold applyEntry
  split
  · show setField fd k v f = fd f
    unfold setField
    exact if_neg (fun h => hk h.symm)
  · rfl

theorem mergeKVs_apply (kvs : List (String × JsonVal)) (fd : FormData) (f : String) :
    mergeKVs fd kvs f = jsFinal (fd f) (valuesFor f kvs) := by
  induction kvs generalizing fd with
  | nil => rfl
  | cons kv rest ih =>
      rcases kv with ⟨k, v⟩
      by_cases hk : k = f
      · subst hk
        rw [valuesFor_cons]
        simp only [if_pos rfl]
        show mergeKVs (applyEntry fd (k, v)) rest k = jsFinal (fd k) (v :: valuesFor k rest)
        rw [ih, applyEntry_self]
        rfl
      · rw [valuesFor_cons, if_neg hk]
        show mergeKVs (applyEntry fd (k, v)) rest f = jsFinal (fd f) (valuesFor f rest)
        rw [ih, applyEntry_other fd k v f hk]

theorem shouldSet_null (cur : Option JsonVal) : shouldSet cur JsonVal.null = false := by
  simp [shouldSet]

theorem shouldSet_of_truthy (c : JsonVal) (v : JsonVal) (hc : c.truthy = true) :
    shouldSet (some c) v = false := by
  unfold shouldSet
  split
  · rfl
  · simp [hc]

theorem shouldSet_of_falsy (cur : Option JsonVal) (v : JsonVal)
    (hcur : optTruthy cur = false) (hv : v ≠ JsonVal.null) :
    shouldSet cur v = true := by
  unfold shouldSet
  rw [if_neg hv]
  cases cur with
  | none => rfl
  | some c => simp [optTruthy] at hcur; simp [hcur]

theorem jsFinal_truthy (vs : List JsonVal) (cur : Option JsonVal)
    (hcur : optTruthy cur = true) : jsFinal cur vs = cur := by
  induction vs with
  | nil => rfl
  | cons v rest ih =>
      rcases cur with _ | c
      · simp [optTruthy] at hcur
      · show jsFinal (if shouldSet (some c) v then some v else some c) rest = some c
        rw [shouldSet_of_truthy c v hcur]
        simpa using ih

theorem lastNonNull_null_cons (rest : List JsonVal) :
    lastNonNull (JsonVal.null :: rest) = lastNonNull rest := by
  simp only [lastNonNull]
  cases h : lastNonNull rest <;> simp [h]

theorem lastNonNull_cons_of_ne (v : JsonVal) (rest : List JsonVal)
    (hv : v ≠ JsonVal.null) :
    lastNonNull (v :: rest) = oOr (lastNonNull rest) (some v) := by
  simp only [lastNonNull]
  cases h : lastNonNull rest <;> simp [h, oOr, hv]

theorem firstTruthy_cons (v : JsonVal) (rest : List JsonVal) :
    firstTruthy (v :: rest) = if v.truthy then some v else firstTruthy rest := rfl

theorem firstTruthy_null_cons (rest : List JsonVal) :
    firstTruthy (JsonVal.null :: rest) = firstTruthy rest := by
  rw [firstTruthy_cons, if_neg (by simp [JsonVal.truthy])]

theorem jsFinal_falsy (vs : List JsonVal) : ∀ cur, optTruthy cur = false →
    jsFinal cur vs = oOr (firstTruthy vs) (oOr (lastNonNull vs) cur) := by
  induction vs with
  | nil =>
      intro cur _
      rfl
  | cons v rest ih =>
      intro cur hcur
      show jsFinal (if shouldSet cur v then some v else cur) rest = _
      by_cases hv : v = JsonVal.null
      · subst hv
        rw [shouldSet_null]
        show jsFinal cur rest = _
        rw [ih cur hcur, lastNonNull_null_cons, firstTruthy_null_cons]
      · rw [if_pos (shouldSet_of_falsy cur v hcur hv)]
        cases hvt : v.truthy with
        | true =>
            rw [jsFinal_truthy rest (some v) (by simpa [optTruthy] using hvt)]
            rw [firstTruthy_cons, if_pos hvt]
            rfl
        | false =>
            rw [ih (some v) (by simpa [optTruthy] using hvt)]
            rw [lastNonNull_cons_of_ne v rest hv]
            rw [firstTruthy_cons, if_neg (by simp [hvt])]
            rw [oOr_assoc]
            rfl

theorem mergeDocs_apply (docs : List ProcessedDoc) (f : String) :
    mergeDocs docs f = jsFinal none (fieldValues docs f) := by
  unfold mergeDocs
  rw [foldl_mergeDoc]
  exact mergeKVs_apply (entryStream docs) emptyFD f

theorem mergeDocs_char (docs : List ProcessedDoc) (f : String) :
    mergeDocs docs f =
      oOr (firstTruthy (fieldValues docs f)) (lastNonNull (fieldValues docs f)) := by
  rw [mergeDocs_apply, jsFinal_falsy (fieldValues docs f) none rfl, oOr_none_right]

theorem firstTruthy_append (a b : List JsonVal) :
    firstTruthy (a ++ b) = oOr (firstTruthy a) (firstTruthy b) := by
  induction a with
  | nil => rfl
  | cons v rest ih =>
      rw [List.cons_append, firstTruthy_cons, firstTruthy_cons]
      cases v.truthy
      · simpa using ih
      · simp [oOr]

theorem firstTruthy_truthy (vs : List JsonVal) (v : JsonVal)
    (h : firstTruthy vs = some v) : v.truthy = true := by
  induction vs with
  | nil => exact absurd h (by simp [firstTruthy])
  | cons w rest ih =>
      unfold firstTruthy at h
      cases hw : w.truthy with
      | true => rw [hw] at h; simp at h; rw [← h]; exact hw
      | false => rw [hw] at h; simp at h; exact ih h

theorem firstTruthy_none_lastNonNull (vs : List JsonVal) (w : JsonVal)
    (hft : firstTruthy vs = none) (hln : lastNonNull vs = some w) :
    w.truthy = false := by
  induction vs with
  | nil => exact absurd hln (by simp [lastNonNull])
  | cons v rest ih =>
      unfold firstTruthy at hft
      cases hv : v.truthy with
      | true => rw [hv] at hft; simp at hft
      | false =>
          rw [hv] at hft
          simp at hft
          by_cases hvn : v = JsonVal.null
          · subst hvn
            rw [lastNonNull_null_cons] at hln
            exact ih hft hln
          · rw [lastNonNull_cons_of_ne v rest hvn] at hln
            cases hr : lastNonNull rest with
            | some u =>
                rw [hr] at hln
                have hu : u = w := by simpa [oOr] using hln
                subst hu
                exact ih hft hr
            | none =>
                rw [hr] at hln
                have hvw : v = w := by simpa [oOr] using hln
                subst hvw
                exact hv

theorem firstTruthy_all_null (vs : List JsonVal)
    (h : ∀ v ∈ vs, v = JsonVal.null) : firstTruthy vs = none := by
  induction vs with
  | nil => rfl
  | cons v rest ih =>
      have hv : v = JsonVal.null := h v (by simp)
      subst hv
      unfold firstTruthy
      simp [JsonVal.truthy]
      exact ih (fun w hw => h w (by simp [hw]))

theorem lastNonNull_all_null (vs : List JsonVal)
    (h : ∀ v ∈ vs, v = JsonVal.null) : lastNonNull vs = none := by
  induction vs with
  | nil => rfl
  | cons v rest ih =>
      have hv : v = JsonVal.null := h v (by simp)
      subst hv
      rw [lastNonNull_null_cons]
      exact ih (fun w hw => h w (by simp [hw]))

theorem entryStream_append (a b : List ProcessedDoc) :
    entryStream (a ++ b) = entryStream a ++ entryStream b := by
  induction a with
  | nil => rfl
  | cons d rest ih =>
      show entryStream (d :: (rest ++ b)) = _
      rw [entryStream_cons, entryStream_cons, ih, List.append_assoc]

theorem fieldValues_append (a b : List ProcessedDoc) (f : String) :
    fieldValues (a ++ b) f = fieldValues a f ++ fieldValues b f := by
  unfold fieldValues
  rw [entryStream_append, valuesFor_append]

theorem estimatedTax_eq_marginal (ti : ℚ) (h0 : 0 ≤ ti) :
    estimatedTax ti = specMarginalTax ti := by
  unfold estimatedTax specMarginalTax
  rcases le_or_lt ti 10275 with h1 | h1
  · rw [if_pos h1, min_eq_left h1, max_eq_right h0,
        min_eq_left (show ti - 10275 ≤ 41775 - 10275 by linarith),
        max_eq_left (show ti - 10275 ≤ 0 by linarith),
        min_eq_left (show ti - 41775 ≤ 89075 - 41775 by linarith),
        max_eq_left (show ti - 41775 ≤ 0 by linarith),
        min_eq_left (show ti - 89075 ≤ 170050 - 89075 by linarith),
        max_eq_left (show ti - 89075 ≤ 0 by linarith),
        min_eq_left (show ti - 170050 ≤ 215950 - 170050 by linarith),
        max_eq_left (show ti - 170050 ≤ 0 by linarith),
        min_eq_left (show ti - 215950 ≤ 539900 - 215950 by linarith),
        max_eq_left (show ti - 215950 ≤ 0 by linarith),
        max_eq_left (show ti - 539900 ≤ 0 by linarith)]
    ring
  · rcases le_or_lt ti 41775 with h2 | h2
    · rw [if_neg (not_le.mpr h1), if_pos h2,
          min_eq_right (show (10275 : ℚ) ≤ ti by linarith),
          max_eq_right (show (0 : ℚ) ≤ 10275 by norm_num),
          min_eq_left (show ti - 10275 ≤ 41775 - 10275 by linarith),
          max_eq_right (show (0 : ℚ) ≤ ti - 10275 by linarith),
          min_eq_left (show ti - 41775 ≤ 89075 - 41775 by linarith),
          max_eq_left (show ti - 41775 ≤ 0 by linarith),
          min_eq_left (show ti - 89075 ≤ 170050 - 89075 by linarith),
          max_eq_left (show ti - 89075 ≤ 0 by linarith),
          min_eq_left (show ti - 170050 ≤ 215950 - 170050 by linarith),
          max_eq_left (show ti - 170050 ≤ 0 by linarith),
          min_eq_left (show ti - 215950 ≤ 539900 - 215950 by linarith),
          max_eq_left (show ti - 215950 ≤ 0 by linarith),
          max_eq_left (show ti - 539900 ≤ 0 by linarith)]
      ring
    · rcases le_or_lt ti 89075 with h3 | h3
      · rw [if_neg (not_le.mpr h1), if_neg (not_le.mpr h2), if_pos h3,
            min_eq_right (show (10275 : ℚ) ≤ ti by linarith),
            max_eq_right (show (0 : ℚ) ≤ 10275 by norm_num),
            min_eq_right (show (41775 - 10275 : ℚ) ≤ ti - 10275 by linarith),
            max_eq_right (show (0 : ℚ) ≤ 41775 - 10275 by norm_num),
            min_eq_left (show ti - 41775 ≤ 89075 - 41775 by linarith),
            max_eq_right (show (0 : ℚ) ≤ ti - 41775 by linarith),
            min_eq_left (show ti - 89075 ≤ 170050 - 89075 by linarith),
            max_eq_left (show ti - 89075 ≤ 0 by linarith),
            min_eq_left (show ti - 170050 ≤ 215950 - 170050 by linarith),
            max_eq_left (show ti - 170050 ≤ 0 by linarith),
            min_eq_left (show ti - 215950 ≤ 539900 - 215950 by linarith),
            max_eq_left (show ti - 215950 ≤ 0 by linarith),
            max_eq_left (show ti - 539900 ≤ 0 by linarith)]
        ring
      · rcases le_or_lt ti 170050 with h4 | h4
        · rw [if_neg (not_le.mpr h1), if_neg (not_le.mpr h2), if_neg (not_le.mpr h3),
              if_pos h4,
              min_eq_right (show (10275 : ℚ) ≤ ti by linarith),
              max_eq_right (show (0 : ℚ) ≤ 10275 by norm_num),
              min_eq_right (show (41775 - 10275 : ℚ) ≤ ti - 10275 by linarith),
              max_eq_right (show (0 : ℚ) ≤ 41775 - 10275 by norm_num),
              min_eq_right (show (89075 - 41775 : ℚ) ≤ ti - 41775 by linarith),
              max_eq_right (show (0 : ℚ) ≤ 89075 - 41775 by norm_num),
              min_eq_left (show ti - 89075 ≤ 170050 - 89075 by linarith),
              max_eq_right (show (0 : ℚ) ≤ ti - 89075 by linarith),
              min_eq_left (show ti - 170050 ≤ 215950 - 170050 by linarith),
              max_eq_left (show ti - 170050 ≤ 0 by linarith),
              min_eq_left (show ti - 215950 ≤ 539900 - 215950 by linarith),
              max_eq_left (show ti - 215950 ≤ 0 by linarith),
              max_eq_left (show ti - 539900 ≤ 0 by linarith)]
          ring
        · rcases le_or_lt ti 215950 with h5 | h5
          · rw [if_neg (not_le.mpr h1), if_neg (not_le.mpr h2), if_neg (not_le.mpr h3),
                if_neg (not_le.mpr h4), if_pos h5,
                min_eq_right (show (10275 : ℚ) ≤ ti by linarith),
                max_eq_right (show (0 : ℚ) ≤ 10275 by norm_num),
                min_eq_right (show (41775 - 10275 : ℚ) ≤ ti - 10275 by linarith),
                max_eq_right (show (0 : ℚ) ≤ 41775 - 10275 by norm_num),
                min_eq_right (show (89075 - 41775 : ℚ) ≤ ti - 41775 by linarith),
                max_eq_right (show (0 : ℚ) ≤ 89075 - 41775 by norm_num),
                min_eq_right (show (170050 - 89075 : ℚ) ≤ ti - 89075 by linarith),
                max_eq_right (show (0 : ℚ) ≤ 170050 - 89075 by norm_num),
                min_eq_left (show ti - 170050 ≤ 215950 - 170050 by linarith),
                max_eq_right (show (0 : ℚ) ≤ ti - 170050 by linarith),
                min_eq_left (show ti - 215950 ≤ 539900 - 215950 by linarith),
                max_eq_left (show ti - 215950 ≤ 0 by linarith),
                max_eq_left (show ti - 539900 ≤ 0 by linarith)]
            ring
          · rcases le_or_lt ti 539900 with h6 | h6
            · rw [if_neg (not_le.mpr h1), if_neg (not_le.mpr h2), if_neg (not_le.mpr h3),
                  if_neg (not_le.mpr h4), if_neg (not_le.mpr h5), if_pos h6,
                  min_eq_right (show (10275 : ℚ) ≤ ti by linarith),
                  max_eq_right (show (0 : ℚ) ≤ 10275 by norm_num),
                  min_eq_right (show (41775 - 10275 : ℚ) ≤ ti - 10275 by linarith),
                  max_eq_right (show (0 : ℚ) ≤ 41775 - 10275 by norm_num),
                  min_eq_right (show (89075 - 41775 : ℚ) ≤ ti - 41775 by linarith),
                  max_eq_right (show (0 : ℚ) ≤ 89075 - 41775 by norm_num),
                  min_eq_right (show (170050 - 89075 : ℚ) ≤ ti - 89075 by linarith),
                  max_eq_right (show (0 : ℚ) ≤ 170050 - 89075 by norm_num),
                  min_eq_right (show (215950 - 170050 : ℚ) ≤ ti - 170050 by linarith),
                  max_eq_right (show (0 : ℚ) ≤ 215950 - 170050 by norm_num),
                  min_eq_left (show ti - 215950 ≤ 539900 - 215950 by linarith),
                  max_eq_right (show (0 : ℚ) ≤ ti - 215950 by linarith),
                  max_eq_left (show ti - 539900 ≤ 0 by linarith)]
              ring
            · rw [if_neg (not_le.mpr h1), if_neg (not_le.mpr h2), if_neg (not_le.mpr h3),
                  if_neg (not_le.mpr h4), if_neg (not_le.mpr h5), if_neg (not_le.mpr h6),
                  min_eq_right (show (10275 : ℚ) ≤ ti by linarith),
                  max_eq_right (show (0 : ℚ) ≤ 10275 by norm_num),
                  min_eq_right (show (41775 - 10275 : ℚ) ≤ ti - 10275 by linarith),
                  max_eq_right (show (0 : ℚ) ≤ 41775 - 10275 by norm_num),
                  min_eq_right (show (89075 - 41775 : ℚ) ≤ ti - 41775 by linarith),
                  max_eq_right (show (0 : ℚ) ≤ 89075 - 41775 by norm_num),
                  min_eq_right (show (170050 - 89075 : ℚ) ≤ ti - 89075 by linarith),
                  max_eq_right (show (0 : ℚ) ≤ 170050 - 89075 by norm_num),
                  min_eq_right (show (215950 - 170050 : ℚ) ≤ ti - 170050 by linarith),
                  max_eq_right (show (0 : ℚ) ≤ 215950 - 170050 by norm_num),
                  min_eq_right (show (539900 - 215950 : ℚ) ≤ ti - 215950 by linarith),
                  max_eq_right (show (0 : ℚ) ≤ 539900 - 215950 by norm_num),
                  max_eq_right (show (0 : ℚ) ≤ ti - 539900 by linarith)]
              ring

/-! ### Claim theorems -/

/-- Claim C1 (counterexample): reconciliation is not first-non-null-wins
as stated.  In the batch [docWagesZero, docWages500] the first document
supplies the non-null wages value 0, yet the merged record holds 500:
the already-set field was overwritten because the merge guard
!formData[key] also fires on a stored falsy value such as 0. -/
theorem claim_C1_counterexample :
    mergeDocs [docWagesZero, docWages500] "wages" ≠
      firstNonNull (fieldValues [docWagesZero, docWages500] "wages") ∧
    mergeDocs [docWagesZero, docWages500] "wages" = some (JsonVal.num 500) ∧
    firstNonNull (fieldValues [docWagesZero, docWages500] "wages") =
      some (JsonVal.num 0) := by
  refine ⟨?_, ?_, ?_⟩ <;> decide

/-- Claim C1 (amended): for every ordered batch and every field, the
merged value is the first non-null truthy value supplied for that field
in the supplied order; when only falsy non-null values are supplied, it
is the last of those; a field holding a truthy value is never
overwritten.  In particular, with two different truthy wage values,
[A, B] yields the wages of A and [B, A] yields the wages of B. -/
theorem claim_C1_amended :
    (∀ (docs : List ProcessedDoc) (f : String),
      mergeDocs docs f =
        oOr (firstTruthy (fieldValues docs f)) (lastNonNull (fieldValues docs f))) ∧
    mergeDocs [docWagesA, docWagesB] "wages" = some (JsonVal.num 75000) ∧
    mergeDocs [docWagesB, docWagesA] "wages" = some (JsonVal.num 60000) :=
  ⟨mergeDocs_char, by decide, by decide⟩

/-- Claim C2: estimatedTax is the progressive-bracket function of
taxableIncome — equal to the marginal-rate sum with rates 10, 12, 22,
24, 32, 35, 37 percent over the stated thresholds, which fixes the
cumulative constants 1027.50, 4807.50, 15213.50, 34647.50, 49335.50 and
162718 —, the reported tax is that value rounded to the nearest whole
unit, and the boundary instances hold: taxableIncome 0 gives 0 and
taxableIncome 10275 gives 1028. -/
theorem claim_C2 :
    (∀ ti : ℚ, 0 ≤ ti → estimatedTax ti = specMarginalTax ti) ∧
    (∀ d : Form1040Data, reportedTax d = jsRound (estimatedTax (taxableIncome d))) ∧
    jsRound (estimatedTax 0) = 0 ∧
    jsRound (estimatedTax 10275) = 1028 :=
  ⟨estimatedTax_eq_marginal, fun _ => rfl,
   by norm_num [jsRound, estimatedTax],
   by norm_num [jsRound, estimatedTax]⟩

/-- Witness for claim C2 at the concrete taxable income 100000. -/
theorem claim_C2_witness :
    estimatedTax 100000 = specMarginalTax 100000 :=
  claim_C2.1 100000 (by norm_num)

/-- Claim C3 (counterexample): the reported missing set is not exactly
the required fields whose merged value is absent or null: a document
supplying wages = 0 leaves wages present and non-null in the merged
record, yet wages is still reported missing, because the membership
test !formData[field] fires on any falsy value. -/
theorem claim_C3_counterexample :
    missingFields [docWagesZero] ≠ specMissingFields [docWagesZero] ∧
    "wages" ∈ missingFields [docWagesZero] ∧
    mergeDocs [docWagesZero] "wages" = some (JsonVal.num 0) := by
  refine ⟨?_, ?_, ?_⟩ <;> decide

/-- Claim C3 (amended): the missing set is exactly the subset of the
fixed required-field list whose merged value is absent or falsy (null,
0, the empty string or false), listed in the canonical order of the
required-field list. -/
theorem claim_C3_amended :
    (∀ (docs : List ProcessedDoc) (f : String),
      f ∈ missingFields docs ↔
        f ∈ requiredFields ∧ optTruthy (mergeDocs docs f) = false) ∧
    ∀ docs : List ProcessedDoc, (missingFields docs).Sublist requiredFields := by
  constructor
  · intro docs f
    simp [missingFields, List.mem_filter]
  · intro docs
    exact List.filter_sublist _

/-- Claim C4: totalIncome is the sum of the five income fields (an
absent otherIncome contributing 0), adjustedGrossIncome is totalIncome
minus adjustments without clamping (it is negative whenever adjustments
exceed total income), and taxableIncome is the larger of 0 and AGI
minus the applied deduction, hence never negative. -/
theorem claim_C4 :
    (∀ d : Form1040Data, totalIncome d =
        d.wages + d.interest + d.dividends + d.capitalGains + orZero d.otherIncome) ∧
    (∀ d : Form1040Data, adjustedGrossIncome d = totalIncome d - orZero d.adjustments) ∧
    (∀ d : Form1040Data, totalIncome d < orZero d.adjustments → adjustedGrossIncome d < 0) ∧
    (∀ d : Form1040Data, taxableIncome d = max 0 (adjustedGrossIncome d - deductionApplied d)) ∧
    (∀ d : Form1040Data, 0 ≤ taxableIncome d) := by
  refine ⟨fun d => rfl, fun d => rfl, ?_, fun d => rfl, fun d => le_max_left 0 _⟩
  intro d h
  unfold adjustedGrossIncome
  linarith

/-- Witness for claim C4: a record whose adjustments (500) exceed its
total income (100) gets a negative AGI. -/
theorem claim_C4_witness :
    adjustedGrossIncome recNegAGI < 0 :=
  claim_C4.2.2.1 recNegAGI (by norm_num [totalIncome, recNegAGI, orZero])

/-- Claim C5: the standard deduction is the stated lookup by
filingStatus; a user-supplied deductions value greater than 0 is used
instead of the lookup, while an absent or zero deductions value falls
back to it; in particular a single filer with deductions 0 gets 12950
and with deductions 15000 gets 15000. -/
theorem claim_C5 :
    standardDeduction "single" = 12950 ∧
    standardDeduction "married_separate" = 12950 ∧
    standardDeduction "head_of_household" = 19400 ∧
    standardDeduction "married_joint" = 25900 ∧
    standardDeduction "qualifying_widow" = 25900 ∧
    (∀ (d : Form1040Data) (v : ℚ), d.deductions = some v → 0 < v →
      deductionApplied d = v) ∧
    (∀ d : Form1040Data, d.deductions = none ∨ d.deductions = some 0 →
      deductionApplied d = standardDeduction d.filingStatus) ∧
    deductionApplied recSingleZeroDed = 12950 ∧
    deductionApplied recSingleDed15000 = 15000 := by
  refine ⟨by decide, by decide, by decide, by decide, by decide, ?_, ?_, by decide, by decide⟩
  · intro d v hv hpos
    unfold deductionApplied orElseQ
    rw [hv]
    exact if_neg (ne_of_gt hpos)
  · intro d hd
    unfold deductionApplied orElseQ
    rcases hd with h | h
    · rw [h]
    · rw [h]
      show (if (0 : ℚ) = 0 then standardDeduction d.filingStatus else 0) =
        standardDeduction d.filingStatus
      rw [if_pos rfl]

/-- Witness for claim C5: the override 15000 is applied for a single
filer. -/
theorem claim_C5_witness :
    deductionApplied recSingleDed15000 = 15000 :=
  claim_C5.2.2.2.2.2.1 recSingleDed15000 15000 rfl (by norm_num)

/-- Claim C6 (counterexample): a numeric field no document supplies is
not defaulted to 0 in the merged record: with a batch supplying only
wages, the merged interest is absent, not the number 0. -/
theorem claim_C6_counterexample :
    mergeDocs [docWagesA] "interest" = none ∧
    mergeDocs [docWagesA] "interest" ≠ some (JsonVal.num 0) := by
  refine ⟨?_, ?_⟩ <;> decide

/-- Claim C6 (amended): after reconciliation every field — numeric ones
included — that no document supplies (or is supplied only as null) is
left absent in the merged record, exactly like the identity, address
and filing-status fields; defaulting happens only at computation time,
where an absent otherIncome and an absent adjustments contribute 0,
while an absent deductions falls back to the filing-status standard
deduction rather than to 0. -/
theorem claim_C6_amended :
    (∀ (docs : List ProcessedDoc) (f : String),
      (∀ v ∈ fieldValues docs f, v = JsonVal.null) → mergeDocs docs f = none) ∧
    (∀ d : Form1040Data, d.otherIncome = none → orZero d.otherIncome = 0) ∧
    (∀ d : Form1040Data, d.adjustments = none → orZero d.adjustments = 0) ∧
    (∀ d : Form1040Data, d.deductions = none →
      deductionApplied d = standardDeduction d.filingStatus) := by
  refine ⟨?_, ?_, ?_, ?_⟩
  · intro docs f h
    rw [mergeDocs_char, firstTruthy_all_null _ h, lastNonNull_all_null _ h]
    rfl
  · intro d h
    rw [h]
    rfl
  · intro d h
    rw [h]
    rfl
  · intro d h
    unfold deductionApplied orElseQ
    rw [h]

/-- Witness for claim C6 (amended), at a batch that supplies wages but
not interest, a record without otherIncome, and a record without a
deductions value. -/
theorem claim_C6_witness :
    mergeDocs [docWagesA] "interest" = none ∧
    orZero recNegAGI.otherIncome = 0 ∧
    deductionApplied recCasedStatus = standardDeduction recCasedStatus.filingStatus :=
  ⟨claim_C6_amended.1 [docWagesA] "interest" (by decide),
   claim_C6_amended.2.1 recNegAGI rfl,
   claim_C6_amended.2.2.2 recCasedStatus rfl⟩

/-- Claim C7: completeness is monotone — every field reported missing
for a batch with one more document appended was already reported
missing for the original batch. -/
theorem claim_C7 (docs : List ProcessedDoc) (d : ProcessedDoc) (f : String)
    (h : f ∈ missingFields (docs ++ [d])) : f ∈ missingFields docs := by
  simp only [missingFields, List.mem_filter] at h ⊢
  refine ⟨h.1, ?_⟩
  have h2 := h.2
  cases hopt : optTruthy (mergeDocs docs f) with
  | false => simp [hopt]
  | true =>
      exfalso
      have hchar := mergeDocs_char docs f
      have happ : mergeDocs (docs ++ [d]) f =
          oOr (firstTruthy (fieldValues docs f ++ fieldValues [d] f))
              (lastNonNull (fieldValues docs f ++ fieldValues [d] f)) := by
        rw [mergeDocs_char, fieldValues_append]
      cases hft : firstTruthy (fieldValues docs f) with
      | some v =>
          have hvt := firstTruthy_truthy _ v hft
          rw [firstTruthy_append, hft] at happ
          have hmv : mergeDocs (docs ++ [d]) f = some v := by
            rw [happ]
            rfl
          rw [hmv] at h2
          simp [optTruthy, hvt] at h2
      | none =>
          rw [hchar, hft] at hopt
          cases hln : lastNonNull (fieldValues docs f) with
          | none =>
              rw [hln] at hopt
              simp [oOr, optTruthy] at hopt
          | some w =>
              have hwf := firstTruthy_none_lastNonNull _ w hft hln
              rw [hln] at hopt
              simp [oOr, optTruthy, hwf] at hopt

/-- Witness for claim C7: with an empty original batch and one error
document appended, wages is missing for both batches. -/
theorem claim_C7_witness :
    "wages" ∈ missingFields ([] ++ [fallbackDoc]) ∧ "wages" ∈ missingFields [] :=
  ⟨by decide, claim_C7 [] fallbackDoc "wages" (by decide)⟩

/-- Claim C8 (counterexample): a document whose raw text had no JSON
yields the fallback field set, which carries the error marker inside
the analysis object and no top-level error; the merge loop guard only
checks the top-level error, so this document is still merged — its
error entry lands in the merged record, unlike the merge of the
spec that skips every document carrying an error marker. -/
theorem claim_C8_counterexample :
    hasErrorMarker fallbackDoc = true ∧
    mergeDocs [fallbackDoc] "error" =
      some (JsonVal.str "Could not parse structured data from document") ∧
    specMergeNoErr [fallbackDoc] "error" = none := by
  refine ⟨?_, ?_, ?_⟩ <;> decide

/-- Claim C8 (amended): a parse failure never aborts the batch: the
no-JSON fallback document is returned with the error marker inside its
field set and no fields, documents with a top-level error are skipped
by the merge, and the fallback document — although merged — only
contributes its error entry, so every other field and the whole
missing-field report are as if it were absent. -/
theorem claim_C8_amended :
    (∀ (fd : FormData) (kvs : List (String × JsonVal)) (e : String), e ≠ "" →
      mergeDoc fd ⟨some kvs, some e⟩ = fd) ∧
    (∀ (docs : List ProcessedDoc) (f : String), f ≠ "error" →
      mergeDocs (fallbackDoc :: docs) f = mergeDocs docs f) ∧
    (∀ docs : List ProcessedDoc,
      missingFields (fallbackDoc :: docs) = missingFields docs) := by
  have h2 : ∀ (docs : List ProcessedDoc) (f : String), f ≠ "error" →
      mergeDocs (fallbackDoc :: docs) f = mergeDocs docs f := by
    intro docs f hf
    rw [mergeDocs_apply, mergeDocs_apply]
    have hfv : fieldValues (fallbackDoc :: docs) f = fieldValues docs f := by
      show valuesFor f (entryStream (fallbackDoc :: docs)) =
        valuesFor f (entryStream docs)
      rw [entryStream_cons, valuesFor_append]
      have hnil : valuesFor f (docEntries fallbackDoc) = [] := by
        show valuesFor f
          [("error", JsonVal.str "Could not parse structured data from document")] = []
        simp [valuesFor, Ne.symm hf]
      rw [hnil, List.nil_append]
    rw [hfv]
  refine ⟨?_, h2, ?_⟩
  · intro fd kvs e he
    unfold mergeDoc
    simp [errFalsy, he]
  · intro docs
    unfold missingFields
    apply List.filter_congr
    intro f hf
    have hfe : f ≠ "error" := fun hcontra => by
      subst hcontra
      revert hf
      decide
    rw [h2 docs f hfe]

/-- Witness for claim C8 (amended): prepending the fallback document to
a wages document leaves the merged wages unchanged. -/
theorem claim_C8_witness :
    mergeDocs (fallbackDoc :: [docWagesA]) "wages" = mergeDocs [docWagesA] "wages" :=
  claim_C8_amended.2.1 [docWagesA] "wages" (by decide)

/-- Claim C9 (counterexample): the parsed JSON is used as is — a field
outside the fixed vocabulary survives into the merged record, and a
wages value of the wrong type (a string) is kept rather than coerced to
null. -/
theorem claim_C9_counterexample :
    ("bogus" ∉ fieldVocabulary) ∧
    mergeDocs [bogusDoc] "bogus" = some (JsonVal.num 5) ∧
    mergeDocs [bogusDoc] "wages" = some (JsonVal.str "abc") := by
  refine ⟨?_, ?_, ?_⟩ <;> decide

/-- Claim C9 (amended): no vocabulary filtering or type coercion occurs
after JSON.parse: any key with any truthy value supplied by the first
document — in the vocabulary or not, of the expected type or not — is
the merged value for that key. -/
theorem claim_C9_amended :
    ∀ (k : String) (v : JsonVal) (docs : List ProcessedDoc),
      v.truthy = true →
      mergeDocs (ProcessedDoc.mk (some [(k, v)]) none :: docs) k = some v := by
  intro k v docs hv
  rw [mergeDocs_char]
  have hfv : fieldValues (ProcessedDoc.mk (some [(k, v)]) none :: docs) k =
      v :: fieldValues docs k := by
    show valuesFor k (entryStream _) = _
    rw [entryStream_cons, valuesFor_append]
    show valuesFor k [(k, v)] ++ valuesFor k (entryStream docs) = _
    simp [valuesFor]
    rfl
  rw [hfv, firstTruthy_cons, if_pos hv]
  rfl

/-- Witness for claim C9 (amended): the out-of-vocabulary key bogus
with numeric value 5 becomes the merged value for bogus. -/
theorem claim_C9_witness :
    mergeDocs (ProcessedDoc.mk (some [("bogus", JsonVal.num 5)]) none :: []) "bogus" =
      some (JsonVal.num 5) :=
  claim_C9_amended "bogus" (JsonVal.num 5) [] (by decide)

/-- Claim C10: every filingStatus string other than exactly single,
married_separate and head_of_household — including casing variants such
as Single — falls into the final else branch, so when no positive
deductions override is supplied the applied standard deduction is
25900. -/
theorem claim_C10 :
    (∀ fs : String, fs ≠ "single" → fs ≠ "married_separate" →
      fs ≠ "head_of_household" → standardDeduction fs = 25900) ∧
    (∀ d : Form1040Data, d.filingStatus ≠ "single" →
      d.filingStatus ≠ "married_separate" → d.filingStatus ≠ "head_of_household" →
      d.deductions = none ∨ d.deductions = some 0 →
      deductionApplied d = 25900) ∧
    standardDeduction "Single" = 25900 := by
  have hstd : ∀ fs : String, fs ≠ "single" → fs ≠ "married_separate" →
      fs ≠ "head_of_household" → standardDeduction fs = 25900 := by
    intro fs h1 h2 h3
    unfold standardDeduction
    rw [if_neg (by tauto), if_neg h3]
  refine ⟨hstd, ?_, by decide⟩
  intro d h1 h2 h3 hd
  unfold deductionApplied orElseQ
  rcases hd with h | h
  · rw [h]
    exact hstd _ h1 h2 h3
  · rw [h]
    show (if (0 : ℚ) = 0 then standardDeduction d.filingStatus else 0) = 25900
    rw [if_pos rfl]
    exact hstd _ h1 h2 h3

/-- Witness for claim C10: the record with filingStatus Single and no
deductions override gets the 25900 deduction. -/
theorem claim_C10_witness :
    deductionApplied recCasedStatus = 25900 :=
  claim_C10.2.1 recCasedStatus (by decide) (by decide) (by decide) (Or.inl rfl)

end TaxApp
